import Mathlib

/-!
Shallow embedding of src/source/lcz_lwm2m_ble_sensor.c (Laird Connectivity
LwM2M BLE sensor bridge) and proofs about its advertisement pipeline.

The module's mutable state (the struct lbs) is the record LbsState below:
the capacity-full flag and the fixed-capacity per-device table.  Calls into
external collaborators (the gateway-object directory, the measurement sinks,
the name database) are modelled in two parts: the values the collaborator
returns during one invocation are an explicit environment argument (DirEnv),
and the calls the code issues are recorded in an effect trace (Effect), so
that a theorem can state that a path performs no creation, no dispatch, etc.

All numeric conversions the C code performs in double precision are modelled
over the rationals, which represent the mathematical value of each conversion
exactly; the raw 4-byte payload union of an event is carried as its little
endian bit pattern (a natural number below 2 ^ 32) and the u16 / s32 / float
members are read from those bits exactly as a little-endian C union does.
-/

namespace LczSensor

/-- Zephyr errno value EPERM; the code returns the negative value -EPERM. -/
def EPERM : Int := 1

/-- Zephyr errno value ENOMEM; the directory returns -ENOMEM when full. -/
def ENOMEM : Int := 12

/- Modelled from the spec: the numeric sensor-event type codes are declared in
the external header lcz_sensor_event.h, which is not part of this repository.
The model fixes distinct values, consecutive inside each multi-channel family,
which is all the source relies on (the switch labels are distinct, and the
sub-channel offset is the distance to the first member of a family). -/

def SENSOR_EVENT_TEMPERATURE : Nat := 1
def SENSOR_EVENT_BATTERY_GOOD : Nat := 12
def SENSOR_EVENT_BATTERY_BAD : Nat := 16
def SENSOR_EVENT_TEMPERATURE_1 : Nat := 18
def SENSOR_EVENT_TEMPERATURE_2 : Nat := 19
def SENSOR_EVENT_TEMPERATURE_3 : Nat := 20
def SENSOR_EVENT_TEMPERATURE_4 : Nat := 21
def SENSOR_EVENT_CURRENT_1 : Nat := 22
def SENSOR_EVENT_CURRENT_2 : Nat := 23
def SENSOR_EVENT_CURRENT_3 : Nat := 24
def SENSOR_EVENT_CURRENT_4 : Nat := 25
def SENSOR_EVENT_PRESSURE_1 : Nat := 26
def SENSOR_EVENT_PRESSURE_2 : Nat := 27
def SENSOR_EVENT_ULTRASONIC_1 : Nat := 28

/- Modelled from the spec: the product identifiers come from the external
header lcz_sensor_adv_format.h.  The model only needs the two known family
identifiers to be distinct non-negative values (they are stored from a
uint16 scan-response field) and the invalid sentinel to be distinct from
every storable value, hence negative. -/

def INVALID_PRODUCT_ID : Int := -1
def BT510_PRODUCT_ID : Int := 0
def BT6XX_PRODUCT_ID : Int := 1

/-- One slot of the per-device table (struct lwm2m_ble_sensor). -/
structure Slot where
  last_record_type : Nat
  last_event_id : Nat
  product_id : Int
deriving DecidableEq

/-- The module state (the mutable parts of the struct lbs that the claims
touch): the capacity-full latch and the per-device table.  The table is
modelled as a total function from integer indices; the proofs show that the
code only ever reads or writes it at indices inside the capacity bound. -/
structure LbsState where
  table_full : Bool
  table : Int → Slot

/-- Write one table slot. -/
def setSlot (s : LbsState) (i : Int) (v : Slot) : LbsState :=
  { s with table := fun j => if j = i then v else s.table j }

/-- Compile-time configuration: the capacity bound MAX_INSTANCES, the event
lifetime, and the five measurement-category enable switches. -/
structure Config where
  max_instances : Nat
  lifetime : Nat
  temperature : Bool
  battery : Bool
  current : Bool
  pressure : Bool
  fill_level : Bool

/-- The responses the external gateway-object directory gives during one
invocation for the address at hand: the lookup result, the create result,
and whether the record's instance is already created (named or proxied). -/
structure DirEnv where
  lookup : Int
  create : Int
  inst_created : Bool

/-- A decoded advertisement event (LczSensorAdEvent_t): the uint16 sequence
id, the uint8 record type, and the 4-byte data union carried as its little
endian bit pattern. -/
structure LczSensorAdEvent where
  id : Nat
  recordType : Nat
  raw : Nat
deriving DecidableEq

/-- A decoded scan response (LczSensorRsp_t); only the uint16 productId
field is used by this module. -/
structure LczSensorRsp where
  productId : Nat
deriving DecidableEq

/-- Modelled from the spec: the two family-specific battery percentage
curves live in the external module lcz_lwm2m_battery_get_level and are taken
as parameters of the model. -/
structure BatteryCurves where
  bt510 : Rat → Nat
  bt610 : Rat → Nat

/-- Calls issued to external collaborators, recorded in order. -/
inductive Effect where
  | lookup_ble : Effect
  | create_obj : Effect
  | slot_read : Int → Effect
  | slot_write : Int → Effect
  | set_lifetime : Int → Nat → Effect
  | inst_created_query : Int → Effect
  | set_endpoint_name : Int → List Nat → Effect
  | temperature_set : Int → Nat → Rat → Effect
  | battery_set : Int → Nat → Rat → Nat → Effect
  | current_set : Int → Nat → Rat → Effect
  | pressure_set : Int → Nat → Rat → Effect
  | fill_level_set : Int → Nat → Rat → Effect
deriving DecidableEq

/-- Read of the data union as the uint16 member (low two bytes). -/
def data_u16 (raw : Nat) : Nat := raw % 65536

/-- Read of the data union as the uint16 member, then cast to int16_t
(two's-complement reinterpretation), as the temperature branch does. -/
def data_s16 (raw : Nat) : Int :=
  if raw % 65536 < 32768 then (raw % 65536 : Int) else (raw % 65536 : Int) - 65536

/-- Read of the data union as the s32 member, then cast to uint32_t, as the
BT6XX battery branch does: the two's-complement bits read back unsigned. -/
def data_u32 (raw : Nat) : Nat := raw % 4294967296

/-- Read of the data union as the s32 member (two's-complement value). -/
def data_s32 (raw : Nat) : Int :=
  if raw % 4294967296 < 2147483648 then (raw % 4294967296 : Int)
  else (raw % 4294967296 : Int) - 4294967296

/-- Read of the data union as the IEEE-754 binary32 member, valued in the
rationals (the infinite and NaN encodings, which no claim touches, are
mapped to 0). -/
def data_f (raw : Nat) : Rat :=
  if (raw % 4294967296) / 8388608 % 256 = 0 then
    (if raw % 4294967296 / 2147483648 = 1 then -1 else 1) *
      ((raw % 8388608 : Nat) : Rat) / ((2 ^ 149 : Nat) : Rat)
  else if (raw % 4294967296) / 8388608 % 256 = 255 then 0
  else
    (if raw % 4294967296 / 2147483648 = 1 then -1 else 1) *
      ((8388608 + raw % 8388608 : Nat) : Rat) *
      ((2 ^ ((raw % 4294967296) / 8388608 % 256) : Nat) : Rat) / ((2 ^ 150 : Nat) : Rat)

/-- Embedding of valid_index: 0 <= idx < MAX_INSTANCES. -/
def valid_index (cfg : Config) (idx : Int) : Bool :=
  decide (0 ≤ idx) && decide (idx < (cfg.max_instances : Int))

/-- Result of get_index: the returned index, the state after the call, and
the trace of directory calls made. -/
structure GetIndexOut where
  idx : Int
  state : LbsState
  effects : List Effect

/-- Embedding of the body of get_index before its final bound check: look the
address up, and if not found while creation is allowed and the table-full
latch is clear, ask the directory to create a record, latching table_full
when creation reports -ENOMEM. -/
def get_index_raw (cfg : Config) (env : DirEnv) (s : LbsState) (add : Bool) : GetIndexOut :=
  if !valid_index cfg env.lookup && add && !s.table_full then
    GetIndexOut.mk env.create
      (if env.create = -ENOMEM then { s with table_full := true } else s)
      [Effect.lookup_ble, Effect.create_obj]
  else
    GetIndexOut.mk env.lookup s [Effect.lookup_ble]

/-- Embedding of get_index: the body above followed by the final check that
maps any index at or above MAX_INSTANCES to -EPERM. -/
def get_index (cfg : Config) (env : DirEnv) (s : LbsState) (add : Bool) : GetIndexOut :=
  if (cfg.max_instances : Int) ≤ (get_index_raw cfg env s add).idx then
    { get_index_raw cfg env s add with idx := -EPERM }
  else
    get_index_raw cfg env s add

/-- Embedding of ad_discard: true when the event's record type is unknown or
its measurement category is disabled by configuration. -/
def ad_discard (cfg : Config) (p : LczSensorAdEvent) : Bool :=
  if p.recordType = SENSOR_EVENT_TEMPERATURE then !cfg.temperature
  else if p.recordType = SENSOR_EVENT_BATTERY_GOOD ∨ p.recordType = SENSOR_EVENT_BATTERY_BAD then
    !cfg.battery
  else if p.recordType = SENSOR_EVENT_TEMPERATURE_1 ∨ p.recordType = SENSOR_EVENT_TEMPERATURE_2 ∨
      p.recordType = SENSOR_EVENT_TEMPERATURE_3 ∨ p.recordType = SENSOR_EVENT_TEMPERATURE_4 then
    !cfg.temperature
  else if p.recordType = SENSOR_EVENT_CURRENT_1 ∨ p.recordType = SENSOR_EVENT_CURRENT_2 ∨
      p.recordType = SENSOR_EVENT_CURRENT_3 ∨ p.recordType = SENSOR_EVENT_CURRENT_4 then
    !cfg.current
  else if p.recordType = SENSOR_EVENT_PRESSURE_1 ∨ p.recordType = SENSOR_EVENT_PRESSURE_2 then
    !cfg.pressure
  else if p.recordType = SENSOR_EVENT_ULTRASONIC_1 then !cfg.fill_level
  else true

/-- Embedding of ad_process: the value converter and dispatcher.  It reads
the slot's product id for battery events and emits one sink call per enabled
branch; nothing else in the state changes. -/
def ad_process (cfg : Config) (curves : BatteryCurves) (s : LbsState) (idx : Int)
    (p : LczSensorAdEvent) : List Effect :=
  if p.recordType = SENSOR_EVENT_TEMPERATURE then
    if cfg.temperature then
      [Effect.temperature_set idx 0 ((data_s16 p.raw : Rat) / 100)]
    else []
  else if p.recordType = SENSOR_EVENT_TEMPERATURE_1 ∨ p.recordType = SENSOR_EVENT_TEMPERATURE_2 ∨
      p.recordType = SENSOR_EVENT_TEMPERATURE_3 ∨ p.recordType = SENSOR_EVENT_TEMPERATURE_4 then
    if cfg.temperature then
      [Effect.temperature_set idx (p.recordType - SENSOR_EVENT_TEMPERATURE_1) (data_f p.raw)]
    else []
  else if p.recordType = SENSOR_EVENT_BATTERY_GOOD ∨ p.recordType = SENSOR_EVENT_BATTERY_BAD then
    if cfg.battery then
      if (s.table idx).product_id = BT510_PRODUCT_ID then
        [Effect.slot_read idx,
         Effect.battery_set idx 0 ((data_u16 p.raw : Rat) / 1000)
           (curves.bt510 ((data_u16 p.raw : Rat) / 1000))]
      else if (s.table idx).product_id = BT6XX_PRODUCT_ID then
        [Effect.slot_read idx,
         Effect.battery_set idx 0 ((data_u32 p.raw : Rat) / 1000)
           (curves.bt610 ((data_u32 p.raw : Rat) / 1000))]
      else
        [Effect.slot_read idx, Effect.battery_set idx 0 0 0]
    else []
  else if p.recordType = SENSOR_EVENT_CURRENT_1 ∨ p.recordType = SENSOR_EVENT_CURRENT_2 ∨
      p.recordType = SENSOR_EVENT_CURRENT_3 ∨ p.recordType = SENSOR_EVENT_CURRENT_4 then
    if cfg.current then
      [Effect.current_set idx (p.recordType - SENSOR_EVENT_CURRENT_1) (data_f p.raw)]
    else []
  else if p.recordType = SENSOR_EVENT_PRESSURE_1 ∨ p.recordType = SENSOR_EVENT_PRESSURE_2 then
    if cfg.pressure then
      [Effect.pressure_set idx (p.recordType - SENSOR_EVENT_PRESSURE_1) (data_f p.raw)]
    else []
  else if p.recordType = SENSOR_EVENT_ULTRASONIC_1 then
    if cfg.fill_level then
      [Effect.fill_level_set idx 0 (data_f p.raw / 10)]
    else []
  else []

/-- Result of ad_filter: the returned index, the state after the call, and
the trace of external calls made. -/
structure FilterOut where
  idx : Int
  state : LbsState
  effects : List Effect

/-- Embedding of ad_filter: null check, type gate, index resolution with
creation allowed, duplicate suppression, marker update, dispatch, lifetime
extension.  A break in the C do/while returns the current idx with the work
so far. -/
def ad_filter (cfg : Config) (curves : BatteryCurves) (env : DirEnv) (s : LbsState)
    (pe : Option LczSensorAdEvent) : FilterOut :=
  match pe with
  | none => FilterOut.mk (-EPERM) s []
  | some p =>
    if ad_discard cfg p then FilterOut.mk (-EPERM) s []
    else
      if !valid_index cfg (get_index cfg env s true).idx then
        FilterOut.mk (get_index cfg env s true).idx (get_index cfg env s true).state
          (get_index cfg env s true).effects
      else
        if p.id ≠ 0 ∧ p.id = ((get_index cfg env s true).state.table (get_index cfg env s true).idx).last_event_id ∧
            p.recordType = ((get_index cfg env s true).state.table (get_index cfg env s true).idx).last_record_type then
          FilterOut.mk (get_index cfg env s true).idx (get_index cfg env s true).state
            ((get_index cfg env s true).effects ++ [Effect.slot_read (get_index cfg env s true).idx])
        else
          FilterOut.mk (get_index cfg env s true).idx
            (setSlot (get_index cfg env s true).state (get_index cfg env s true).idx
              { (get_index cfg env s true).state.table (get_index cfg env s true).idx with
                last_event_id := p.id, last_record_type := p.recordType })
            ((get_index cfg env s true).effects ++ [Effect.slot_read (get_index cfg env s true).idx] ++
              [Effect.slot_write (get_index cfg env s true).idx] ++
              ad_process cfg curves
                (setSlot (get_index cfg env s true).state (get_index cfg env s true).idx
                  { (get_index cfg env s true).state.table (get_index cfg env s true).idx with
                    last_event_id := p.id, last_record_type := p.recordType })
                (get_index cfg env s true).idx p ++
              [Effect.set_lifetime (get_index cfg env s true).idx cfg.lifetime])

/-- Result of rsp_handler. -/
structure RspOut where
  idx : Int
  state : LbsState
  effects : List Effect

/-- Embedding of rsp_handler: null check, index resolution with creation
disallowed, and on a non-negative index the store of the scan response's
product id into the slot. -/
def rsp_handler (cfg : Config) (env : DirEnv) (s : LbsState)
    (pe : Option LczSensorRsp) : RspOut :=
  match pe with
  | none => RspOut.mk (-EPERM) s []
  | some p =>
    if 0 ≤ (get_index cfg env s false).idx then
      RspOut.mk (get_index cfg env s false).idx
        (setSlot (get_index cfg env s false).state (get_index cfg env s false).idx
          { (get_index cfg env s false).state.table (get_index cfg env s false).idx with
            product_id := (p.productId : Int) })
        ((get_index cfg env s false).effects ++ [Effect.slot_write (get_index cfg env s false).idx])
    else
      RspOut.mk (get_index cfg env s false).idx (get_index cfg env s false).state
        (get_index cfg env s false).effects

/-- Embedding of name_handler.  The AdFind_Name parse of the frame is an
external routine; its result, the optional name bytes, is the nm argument.
The handler mutates no module state; it is pure trace. -/
def name_handler (cfg : Config) (env : DirEnv) (idx : Int)
    (nm : Option (List Nat)) : List Effect :=
  if !valid_index cfg idx then []
  else
    match nm with
    | none => []
    | some name =>
      if env.inst_created then [Effect.inst_created_query idx]
      else [Effect.inst_created_query idx, Effect.set_endpoint_name idx name]

/-- Result of gw_obj_removed. -/
structure RemovedOut where
  ret : Int
  state : LbsState
  effects : List Effect

/-- Embedding of gw_obj_removed: on a valid index clear the capacity latch
and reset the slot's product id to the invalid sentinel; otherwise no-op.
Always returns 0. -/
def gw_obj_removed (cfg : Config) (s : LbsState) (idx : Int) : RemovedOut :=
  if valid_index cfg idx then
    RemovedOut.mk 0
      (setSlot { s with table_full := false } idx
        { s.table idx with product_id := INVALID_PRODUCT_ID })
      [Effect.slot_write idx]
  else
    RemovedOut.mk 0 s []

/-- The classification of a frame by the external matcher
(lcz_sensor_adv_match): the three mutually exclusive wire shapes, or no
match.  A matched shape carries its decoded payload; field pointers of a
matched composite are never null in the C code. -/
inductive ClassifiedAd where
  | adv1m : LczSensorAdEvent → ClassifiedAd
  | coded : LczSensorAdEvent → LczSensorRsp → ClassifiedAd
  | scanRsp : LczSensorRsp → ClassifiedAd
  | noMatch : ClassifiedAd

/-- Result of ad_handler. -/
structure HandlerOut where
  state : LbsState
  effects : List Effect

/-- Embedding of ad_handler on a classified frame.  The directory is
stateful across the two resolutions of the coded branch, so each resolution
carries its own environment (envAd for the event path, envRsp for the scan
response and name paths). -/
def ad_handler (cfg : Config) (curves : BatteryCurves) (envAd envRsp : DirEnv)
    (s : LbsState) (frame : ClassifiedAd) (nm : Option (List Nat)) : HandlerOut :=
  match frame with
  | ClassifiedAd.adv1m p =>
    HandlerOut.mk (ad_filter cfg curves envAd s (some p)).state
      (ad_filter cfg curves envAd s (some p)).effects
  | ClassifiedAd.coded ad rsp =>
    HandlerOut.mk
      (rsp_handler cfg envRsp (ad_filter cfg curves envAd s (some ad)).state (some rsp)).state
      ((ad_filter cfg curves envAd s (some ad)).effects ++
        (rsp_handler cfg envRsp (ad_filter cfg curves envAd s (some ad)).state (some rsp)).effects ++
        name_handler cfg envRsp
          (rsp_handler cfg envRsp (ad_filter cfg curves envAd s (some ad)).state (some rsp)).idx nm)
  | ClassifiedAd.scanRsp rsp =>
    HandlerOut.mk (rsp_handler cfg envRsp s (some rsp)).state
      ((rsp_handler cfg envRsp s (some rsp)).effects ++
        name_handler cfg envRsp (rsp_handler cfg envRsp s (some rsp)).idx nm)
  | ClassifiedAd.noMatch => HandlerOut.mk s []

/-- True exactly on the directory-creation effect. -/
def isCreate : Effect → Bool
  | Effect.create_obj => true
  | _ => false

/-- Number of directory-creation calls in a trace. -/
def createCount (l : List Effect) : Nat := l.countP isCreate

/-- True exactly on the lifetime-extension effect. -/
def isSetLifetime : Effect → Bool
  | Effect.set_lifetime _ _ => true
  | _ => false

/-- True exactly on a measurement-sink dispatch effect. -/
def isDispatch : Effect → Bool
  | Effect.temperature_set _ _ _ => true
  | Effect.battery_set _ _ _ _ => true
  | Effect.current_set _ _ _ => true
  | Effect.pressure_set _ _ _ => true
  | Effect.fill_level_set _ _ _ => true
  | _ => false

/-- True exactly on a set-endpoint-name effect. -/
def isSetName : Effect → Bool
  | Effect.set_endpoint_name _ _ => true
  | _ => false

/-- A table access (read or write) stays inside the capacity bound; true on
every non-access effect. -/
def slotAccessInBounds (cfg : Config) : Effect → Bool
  | Effect.slot_read i => valid_index cfg i
  | Effect.slot_write i => valid_index cfg i
  | _ => true

/-! Helper lemmas shared by several claims. -/

theorem valid_index_false_of_neg (cfg : Config) (idx : Int) (h : idx < 0) :
    valid_index cfg idx = false := by
  have h' : ¬ (0 : Int) ≤ idx := not_le.mpr h
  simp [valid_index, h']

theorem valid_index_nonneg (cfg : Config) (idx : Int) (h : valid_index cfg idx = true) :
    0 ≤ idx := by
  unfold valid_index at h
  simp only [Bool.and_eq_true, decide_eq_true_eq] at h
  exact h.1

theorem valid_index_lt (cfg : Config) (idx : Int) (h : valid_index cfg idx = true) :
    idx < (cfg.max_instances : Int) := by
  unfold valid_index at h
  simp only [Bool.and_eq_true, decide_eq_true_eq] at h
  exact h.2

theorem get_index_idx_lt (cfg : Config) (env : DirEnv) (s : LbsState) (add : Bool) :
    (get_index cfg env s add).idx < (cfg.max_instances : Int) := by
  unfold get_index
  split_ifs with h
  · show -EPERM < (cfg.max_instances : Int)
    have h0 : (0 : Int) ≤ (cfg.max_instances : Int) := Int.natCast_nonneg _
    unfold EPERM
    omega
  · omega

theorem get_index_table_eq (cfg : Config) (env : DirEnv) (s : LbsState) (add : Bool) :
    (get_index cfg env s add).state.table = s.table := by
  unfold get_index get_index_raw
  split_ifs <;> rfl

theorem get_index_full_of_full (cfg : Config) (env : DirEnv) (s : LbsState) (add : Bool)
    (h : s.table_full = true) :
    (get_index cfg env s add).state.table_full = true := by
  unfold get_index get_index_raw
  simp [h]
  split_ifs <;> exact h

theorem get_index_full_eq (cfg : Config) (env : DirEnv) (s : LbsState) (add : Bool)
    (h : env.create ≠ -ENOMEM) :
    (get_index cfg env s add).state.table_full = s.table_full := by
  unfold get_index get_index_raw
  split_ifs <;> simp_all

theorem get_index_state_of_nonneg (cfg : Config) (env : DirEnv) (s : LbsState) (add : Bool)
    (h : 0 ≤ (get_index cfg env s add).idx) :
    (get_index cfg env s add).state = s := by
  unfold get_index get_index_raw at *
  split_ifs at * with h1 h2 h3 <;> simp_all
  · unfold EPERM at h
    omega
  · unfold ENOMEM at *
    omega

theorem get_index_effects_cases (cfg : Config) (env : DirEnv) (s : LbsState) (add : Bool) :
    (get_index cfg env s add).effects = [Effect.lookup_ble] ∨
      (get_index cfg env s add).effects = [Effect.lookup_ble, Effect.create_obj] := by
  unfold get_index get_index_raw
  split_ifs <;> simp

theorem get_index_no_add (cfg : Config) (env : DirEnv) (s : LbsState) :
    (get_index cfg env s false).state = s ∧
      (get_index cfg env s false).effects = [Effect.lookup_ble] := by
  unfold get_index get_index_raw
  simp
  split_ifs <;> simp

theorem get_index_latched (cfg : Config) (env : DirEnv) (s : LbsState) (add : Bool)
    (h : s.table_full = true) :
    (get_index cfg env s add).state = s ∧
      (get_index cfg env s add).effects = [Effect.lookup_ble] ∧
      ((get_index cfg env s add).idx = env.lookup ∨ (get_index cfg env s add).idx = -EPERM) := by
  unfold get_index get_index_raw
  split_ifs <;> simp_all

theorem ad_process_no_create (cfg : Config) (curves : BatteryCurves) (s : LbsState)
    (idx : Int) (p : LczSensorAdEvent) :
    createCount (ad_process cfg curves s idx p) = 0 := by
  unfold ad_process createCount
  split_ifs <;> rfl

theorem ad_process_no_lifetime (cfg : Config) (curves : BatteryCurves) (s : LbsState)
    (idx : Int) (p : LczSensorAdEvent) :
    (ad_process cfg curves s idx p).any isSetLifetime = false := by
  unfold ad_process
  split_ifs <;> rfl

theorem ad_process_no_setName (cfg : Config) (curves : BatteryCurves) (s : LbsState)
    (idx : Int) (p : LczSensorAdEvent) :
    (ad_process cfg curves s idx p).any isSetName = false := by
  unfold ad_process
  split_ifs <;> rfl

theorem ad_process_slots (cfg : Config) (curves : BatteryCurves) (s : LbsState)
    (idx : Int) (p : LczSensorAdEvent) (h : valid_index cfg idx = true) :
    (ad_process cfg curves s idx p).all (slotAccessInBounds cfg) = true := by
  unfold ad_process
  split_ifs <;> simp [slotAccessInBounds, h]

theorem rsp_handler_no_create (cfg : Config) (env : DirEnv) (s : LbsState)
    (pe : Option LczSensorRsp) :
    createCount (rsp_handler cfg env s pe).effects = 0 := by
  cases pe with
  | none => rfl
  | some p =>
    have h := (get_index_no_add cfg env s).2
    simp only [rsp_handler]
    split_ifs <;> simp [createCount, h, isCreate]

theorem rsp_handler_full_eq (cfg : Config) (env : DirEnv) (s : LbsState)
    (pe : Option LczSensorRsp) :
    (rsp_handler cfg env s pe).state.table_full = s.table_full := by
  cases pe with
  | none => rfl
  | some p =>
    have h := (get_index_no_add cfg env s).1
    simp only [rsp_handler]
    split_ifs <;> simp [setSlot, h]

theorem rsp_handler_slots (cfg : Config) (env : DirEnv) (s : LbsState)
    (pe : Option LczSensorRsp) :
    (rsp_handler cfg env s pe).effects.all (slotAccessInBounds cfg) = true := by
  cases pe with
  | none => rfl
  | some p =>
    have h := (get_index_no_add cfg env s).2
    have hlt := get_index_idx_lt cfg env s false
    simp only [rsp_handler]
    split_ifs with h0
    · have hv : valid_index cfg (get_index cfg env s false).idx = true := by
        unfold valid_index
        simp [h0, hlt]
      simp [h, slotAccessInBounds, hv]
    · simp [h, slotAccessInBounds]

theorem name_handler_no_slots (cfg : Config) (env : DirEnv) (idx : Int)
    (nm : Option (List Nat)) :
    (name_handler cfg env idx nm).all (slotAccessInBounds cfg) = true := by
  unfold name_handler
  cases nm <;> split_ifs <;> rfl

theorem name_handler_no_create (cfg : Config) (env : DirEnv) (idx : Int)
    (nm : Option (List Nat)) :
    createCount (name_handler cfg env idx nm) = 0 := by
  unfold name_handler createCount
  cases nm <;> split_ifs <;> rfl

theorem get_index_create_effects (cfg : Config) (env : DirEnv) (s : LbsState)
    (h1 : valid_index cfg env.lookup = false) (h2 : s.table_full = false) :
    (get_index cfg env s true).effects = [Effect.lookup_ble, Effect.create_obj] := by
  unfold get_index get_index_raw
  simp [h1, h2]
  split_ifs <;> rfl

theorem ad_filter_full_of_full (cfg : Config) (curves : BatteryCurves) (env : DirEnv)
    (s : LbsState) (pe : Option LczSensorAdEvent) (h : s.table_full = true) :
    (ad_filter cfg curves env s pe).state.table_full = true := by
  cases pe with
  | none => exact h
  | some p =>
    have hg := get_index_full_of_full cfg env s true h
    simp only [ad_filter]
    split_ifs <;> simp [setSlot, hg, h]

theorem ad_filter_slots (cfg : Config) (curves : BatteryCurves) (env : DirEnv)
    (s : LbsState) (pe : Option LczSensorAdEvent) :
    (ad_filter cfg curves env s pe).effects.all (slotAccessInBounds cfg) = true := by
  cases pe with
  | none => rfl
  | some p =>
    have hg := get_index_effects_cases cfg env s true
    simp only [ad_filter]
    split_ifs with h1 h2 h3
    · rfl
    · rcases hg with hg | hg <;> simp [hg, slotAccessInBounds]
    · have hv : valid_index cfg (get_index cfg env s true).idx = true := by
        revert h2
        cases valid_index cfg (get_index cfg env s true).idx <;> simp
      rcases hg with hg | hg <;> simp [hg, slotAccessInBounds, hv]
    · have hv : valid_index cfg (get_index cfg env s true).idx = true := by
        revert h2
        cases valid_index cfg (get_index cfg env s true).idx <;> simp
      have hp := ad_process_slots cfg curves
        (setSlot (get_index cfg env s true).state (get_index cfg env s true).idx
          { (get_index cfg env s true).state.table (get_index cfg env s true).idx with
            last_event_id := p.id, last_record_type := p.recordType })
        (get_index cfg env s true).idx p hv
      rcases hg with hg | hg <;>
        simp [hg, slotAccessInBounds, hv, List.all_append, hp]

theorem ad_filter_create_le_one (cfg : Config) (curves : BatteryCurves) (env : DirEnv)
    (s : LbsState) (pe : Option LczSensorAdEvent) :
    createCount (ad_filter cfg curves env s pe).effects ≤ 1 := by
  cases pe with
  | none => simp [ad_filter, createCount]
  | some p =>
    have hg := get_index_effects_cases cfg env s true
    have hp := ad_process_no_create cfg curves
      (setSlot (get_index cfg env s true).state (get_index cfg env s true).idx
        { (get_index cfg env s true).state.table (get_index cfg env s true).idx with
          last_event_id := p.id, last_record_type := p.recordType })
      (get_index cfg env s true).idx p
    unfold createCount at hp ⊢
    simp only [ad_filter]
    split_ifs
    · simp
    · rcases hg with hg | hg <;> simp [hg, isCreate]
    · rcases hg with hg | hg <;> simp [hg, isCreate, List.countP_append]
    · rcases hg with hg | hg <;>
        simp [hg, isCreate, List.countP_append, hp]

theorem ad_filter_create_eq_one (cfg : Config) (curves : BatteryCurves) (env : DirEnv)
    (s : LbsState) (p : LczSensorAdEvent) (h1 : ad_discard cfg p = false)
    (h2 : valid_index cfg env.lookup = false) (h3 : s.table_full = false) :
    createCount (ad_filter cfg curves env s (some p)).effects = 1 := by
  have hg := get_index_create_effects cfg env s h2 h3
  have hp := ad_process_no_create cfg curves
    (setSlot (get_index cfg env s true).state (get_index cfg env s true).idx
      { (get_index cfg env s true).state.table (get_index cfg env s true).idx with
        last_event_id := p.id, last_record_type := p.recordType })
    (get_index cfg env s true).idx p
  unfold createCount at hp ⊢
  simp only [ad_filter]
  split_ifs with hd hv hdup
  · exact absurd (h1 ▸ hd) Bool.false_ne_true
  · simp [hg, isCreate]
  · simp [hg, isCreate, List.countP_append]
  · simp [hg, isCreate, List.countP_append, hp]

theorem ad_handler_full_of_full (cfg : Config) (curves : BatteryCurves)
    (envAd envRsp : DirEnv) (s : LbsState) (frame : ClassifiedAd)
    (nm : Option (List Nat)) (h : s.table_full = true) :
    (ad_handler cfg curves envAd envRsp s frame nm).state.table_full = true := by
  cases frame with
  | adv1m p => exact ad_filter_full_of_full cfg curves envAd s (some p) h
  | coded ad rsp =>
    have h1 := ad_filter_full_of_full cfg curves envAd s (some ad) h
    have h2 := rsp_handler_full_eq cfg envRsp
      (ad_filter cfg curves envAd s (some ad)).state (some rsp)
    simp only [ad_handler]
    rw [h2, h1]
  | scanRsp rsp =>
    have h2 := rsp_handler_full_eq cfg envRsp s (some rsp)
    simp only [ad_handler]
    rw [h2, h]
  | noMatch => exact h

/-! Concrete fixtures used by witness theorems. -/

/-- A small configuration with capacity 4 and every category enabled. -/
def cfgW : Config := ⟨4, 300, true, true, true, true, true⟩

/-- Constant battery curves. -/
def curvesW : BatteryCurves := ⟨fun _ => 40, fun _ => 60⟩

/-- Empty state: latch clear, all slots at the power-up values. -/
def sW : LbsState := ⟨false, fun _ => ⟨0, 0, INVALID_PRODUCT_ID⟩⟩

/-- State with the capacity latch set. -/
def sFullW : LbsState := ⟨true, fun _ => ⟨0, 0, INVALID_PRODUCT_ID⟩⟩

/-- Directory that knows the address at index 0. -/
def envW : DirEnv := ⟨0, 0, false⟩

/-- Directory that does not know the address and has no capacity left. -/
def envNomemW : DirEnv := ⟨-1, -ENOMEM, false⟩

/-- Directory that does not know the address and blocks creation. -/
def envEpermW : DirEnv := ⟨-1, -EPERM, false⟩

/-- Claim C10: calling ad_filter with a null event payload, or rsp_handler
with a null scan-response payload, returns -EPERM with no directory lookup
or creation, no table change and no latch change (state unchanged, empty
effect trace). -/
theorem claim_C10_null_payload (cfg : Config) (curves : BatteryCurves) (env : DirEnv)
    (s : LbsState) :
    ad_filter cfg curves env s none = FilterOut.mk (-EPERM) s [] ∧
      rsp_handler cfg env s none = RspOut.mk (-EPERM) s [] :=
  ⟨rfl, rfl⟩

/-- Claim C6: get_index never returns an index at or above MAX_INSTANCES,
whatever the external directory returns from lookup or create, and every
read or write of the device table performed by the advertisement pipeline
(ad_filter, ad_process and rsp_handler as run by ad_handler) and by
gw_obj_removed uses an index inside the capacity bound. -/
theorem claim_C6_index_bounds (cfg : Config) (curves : BatteryCurves)
    (envAd envRsp env : DirEnv) (s : LbsState) (add : Bool) (idx : Int)
    (frame : ClassifiedAd) (nm : Option (List Nat)) :
    (get_index cfg env s add).idx < (cfg.max_instances : Int) ∧
      (ad_handler cfg curves envAd envRsp s frame nm).effects.all (slotAccessInBounds cfg) = true ∧
      (gw_obj_removed cfg s idx).effects.all (slotAccessInBounds cfg) = true := by
  refine ⟨get_index_idx_lt cfg env s add, ?_, ?_⟩
  · cases frame with
    | adv1m p =>
      simpa only [ad_handler] using ad_filter_slots cfg curves envAd s (some p)
    | coded ad rsp =>
      simp only [ad_handler, List.all_append, Bool.and_eq_true]
      exact ⟨⟨ad_filter_slots cfg curves envAd s (some ad),
        rsp_handler_slots cfg envRsp _ (some rsp)⟩,
        name_handler_no_slots cfg envRsp _ nm⟩
    | scanRsp rsp =>
      simp only [ad_handler, List.all_append, Bool.and_eq_true]
      exact ⟨rsp_handler_slots cfg envRsp s (some rsp),
        name_handler_no_slots cfg envRsp _ nm⟩
    | noMatch => rfl
  · unfold gw_obj_removed
    split_ifs with h <;> simp [slotAccessInBounds, h]

/-- Claim C4: an event whose record type is unknown, or whose measurement
category is disabled, is rejected by ad_filter before any directory lookup
or creation and before any table slot is read or written: the result is
-EPERM, the state (table and capacity latch) is unchanged, and the effect
trace is empty. -/
theorem claim_C4_gate_first (cfg : Config) (curves : BatteryCurves) (env : DirEnv)
    (s : LbsState) (p : LczSensorAdEvent)
    (h :
      ¬ p.recordType ∈ [SENSOR_EVENT_TEMPERATURE, SENSOR_EVENT_BATTERY_GOOD,
          SENSOR_EVENT_BATTERY_BAD, SENSOR_EVENT_TEMPERATURE_1, SENSOR_EVENT_TEMPERATURE_2,
          SENSOR_EVENT_TEMPERATURE_3, SENSOR_EVENT_TEMPERATURE_4, SENSOR_EVENT_CURRENT_1,
          SENSOR_EVENT_CURRENT_2, SENSOR_EVENT_CURRENT_3, SENSOR_EVENT_CURRENT_4,
          SENSOR_EVENT_PRESSURE_1, SENSOR_EVENT_PRESSURE_2, SENSOR_EVENT_ULTRASONIC_1] ∨
      ((p.recordType = SENSOR_EVENT_TEMPERATURE ∨ p.recordType = SENSOR_EVENT_TEMPERATURE_1 ∨
          p.recordType = SENSOR_EVENT_TEMPERATURE_2 ∨ p.recordType = SENSOR_EVENT_TEMPERATURE_3 ∨
          p.recordType = SENSOR_EVENT_TEMPERATURE_4) ∧ cfg.temperature = false) ∨
      ((p.recordType = SENSOR_EVENT_BATTERY_GOOD ∨ p.recordType = SENSOR_EVENT_BATTERY_BAD) ∧
          cfg.battery = false) ∨
      ((p.recordType = SENSOR_EVENT_CURRENT_1 ∨ p.recordType = SENSOR_EVENT_CURRENT_2 ∨
          p.recordType = SENSOR_EVENT_CURRENT_3 ∨ p.recordType = SENSOR_EVENT_CURRENT_4) ∧
          cfg.current = false) ∨
      ((p.recordType = SENSOR_EVENT_PRESSURE_1 ∨ p.recordType = SENSOR_EVENT_PRESSURE_2) ∧
          cfg.pressure = false) ∨
      (p.recordType = SENSOR_EVENT_ULTRASONIC_1 ∧ cfg.fill_level = false)) :
    ad_filter cfg curves env s (some p) = FilterOut.mk (-EPERM) s [] := by
  have hd : ad_discard cfg p = true := by
    rcases h with h | ⟨hr, hf⟩ | ⟨hr, hf⟩ | ⟨hr, hf⟩ | ⟨hr, hf⟩ | ⟨hr, hf⟩
    · simp only [List.mem_cons, List.not_mem_nil, or_false] at h
      push_neg at h
      obtain ⟨h1, h2, h3, h4, h5, h6, h7, h8, h9, h10, h11, h12, h13, h14⟩ := h
      simp [ad_discard, h1, h2, h3, h4, h5, h6, h7, h8, h9, h10, h11, h12, h13, h14]
    · rcases hr with h' | h' | h' | h' | h' <;>
        simp [ad_discard, h', hf, SENSOR_EVENT_TEMPERATURE, SENSOR_EVENT_BATTERY_GOOD,
          SENSOR_EVENT_BATTERY_BAD, SENSOR_EVENT_TEMPERATURE_1, SENSOR_EVENT_TEMPERATURE_2,
          SENSOR_EVENT_TEMPERATURE_3, SENSOR_EVENT_TEMPERATURE_4, SENSOR_EVENT_CURRENT_1,
          SENSOR_EVENT_CURRENT_2, SENSOR_EVENT_CURRENT_3, SENSOR_EVENT_CURRENT_4,
          SENSOR_EVENT_PRESSURE_1, SENSOR_EVENT_PRESSURE_2, SENSOR_EVENT_ULTRASONIC_1]
    · rcases hr with h' | h' <;>
        simp [ad_discard, h', hf, SENSOR_EVENT_TEMPERATURE, SENSOR_EVENT_BATTERY_GOOD,
          SENSOR_EVENT_BATTERY_BAD, SENSOR_EVENT_TEMPERATURE_1, SENSOR_EVENT_TEMPERATURE_2,
          SENSOR_EVENT_TEMPERATURE_3, SENSOR_EVENT_TEMPERATURE_4, SENSOR_EVENT_CURRENT_1,
          SENSOR_EVENT_CURRENT_2, SENSOR_EVENT_CURRENT_3, SENSOR_EVENT_CURRENT_4,
          SENSOR_EVENT_PRESSURE_1, SENSOR_EVENT_PRESSURE_2, SENSOR_EVENT_ULTRASONIC_1]
    · rcases hr with h' | h' | h' | h' <;>
        simp [ad_discard, h', hf, SENSOR_EVENT_TEMPERATURE, SENSOR_EVENT_BATTERY_GOOD,
          SENSOR_EVENT_BATTERY_BAD, SENSOR_EVENT_TEMPERATURE_1, SENSOR_EVENT_TEMPERATURE_2,
          SENSOR_EVENT_TEMPERATURE_3, SENSOR_EVENT_TEMPERATURE_4, SENSOR_EVENT_CURRENT_1,
          SENSOR_EVENT_CURRENT_2, SENSOR_EVENT_CURRENT_3, SENSOR_EVENT_CURRENT_4,
          SENSOR_EVENT_PRESSURE_1, SENSOR_EVENT_PRESSURE_2, SENSOR_EVENT_ULTRASONIC_1]
    · rcases hr with h' | h' <;>
        simp [ad_discard, h', hf, SENSOR_EVENT_TEMPERATURE, SENSOR_EVENT_BATTERY_GOOD,
          SENSOR_EVENT_BATTERY_BAD, SENSOR_EVENT_TEMPERATURE_1, SENSOR_EVENT_TEMPERATURE_2,
          SENSOR_EVENT_TEMPERATURE_3, SENSOR_EVENT_TEMPERATURE_4, SENSOR_EVENT_CURRENT_1,
          SENSOR_EVENT_CURRENT_2, SENSOR_EVENT_CURRENT_3, SENSOR_EVENT_CURRENT_4,
          SENSOR_EVENT_PRESSURE_1, SENSOR_EVENT_PRESSURE_2, SENSOR_EVENT_ULTRASONIC_1]
    · simp [ad_discard, hr, hf, SENSOR_EVENT_TEMPERATURE, SENSOR_EVENT_BATTERY_GOOD,
        SENSOR_EVENT_BATTERY_BAD, SENSOR_EVENT_TEMPERATURE_1, SENSOR_EVENT_TEMPERATURE_2,
        SENSOR_EVENT_TEMPERATURE_3, SENSOR_EVENT_TEMPERATURE_4, SENSOR_EVENT_CURRENT_1,
        SENSOR_EVENT_CURRENT_2, SENSOR_EVENT_CURRENT_3, SENSOR_EVENT_CURRENT_4,
        SENSOR_EVENT_PRESSURE_1, SENSOR_EVENT_PRESSURE_2, SENSOR_EVENT_ULTRASONIC_1]
  simp [ad_filter, hd]

/-- Witness for claim C4: record type 99 is unknown; the frame is rejected
with no state change and no external call. -/
theorem claim_C4_witness :
    (¬ (LczSensorAdEvent.mk 7 99 0).recordType ∈ [SENSOR_EVENT_TEMPERATURE,
        SENSOR_EVENT_BATTERY_GOOD, SENSOR_EVENT_BATTERY_BAD, SENSOR_EVENT_TEMPERATURE_1,
        SENSOR_EVENT_TEMPERATURE_2, SENSOR_EVENT_TEMPERATURE_3, SENSOR_EVENT_TEMPERATURE_4,
        SENSOR_EVENT_CURRENT_1, SENSOR_EVENT_CURRENT_2, SENSOR_EVENT_CURRENT_3,
        SENSOR_EVENT_CURRENT_4, SENSOR_EVENT_PRESSURE_1, SENSOR_EVENT_PRESSURE_2,
        SENSOR_EVENT_ULTRASONIC_1]) ∧
      ad_filter cfgW curvesW envW sW (some (LczSensorAdEvent.mk 7 99 0)) =
        FilterOut.mk (-EPERM) sW [] :=
  ⟨by decide,
    claim_C4_gate_first cfgW curvesW envW sW (LczSensorAdEvent.mk 7 99 0) (Or.inl (by decide))⟩

/-- Claim C3: the capacity-full flag is a latch.  A creation attempt that
fails with -ENOMEM sets it; while it is set, index resolution with creation
allowed for an unknown address makes no create call and returns an invalid
index; a -EPERM creation failure leaves the flag as it was; and no frame
path ever clears it, only gw_obj_removed with a valid index does. -/
theorem claim_C3_capacity_latch (cfg : Config) (curves : BatteryCurves)
    (env envAd envRsp : DirEnv) (s : LbsState) (frame : ClassifiedAd)
    (nm : Option (List Nat)) (idx : Int) :
    (valid_index cfg env.lookup = false → s.table_full = false → env.create = -ENOMEM →
      (get_index cfg env s true).state.table_full = true) ∧
    (s.table_full = true → createCount (get_index cfg env s true).effects = 0) ∧
    (s.table_full = true → valid_index cfg env.lookup = false →
      valid_index cfg (get_index cfg env s true).idx = false) ∧
    (env.create = -EPERM → (get_index cfg env s true).state.table_full = s.table_full) ∧
    (s.table_full = true →
      (ad_handler cfg curves envAd envRsp s frame nm).state.table_full = true) ∧
    (valid_index cfg idx = true → (gw_obj_removed cfg s idx).state.table_full = false) ∧
    (valid_index cfg idx = false → (gw_obj_removed cfg s idx).state = s) := by
  refine ⟨?_, ?_, ?_, ?_, ?_, ?_, ?_⟩
  · intro ha hb hc
    unfold get_index get_index_raw
    simp [ha, hb, hc]
    split_ifs <;> rfl
  · intro hfull
    have := (get_index_latched cfg env s true hfull).2.1
    simp [createCount, this, isCreate]
  · intro hfull hlk
    rcases (get_index_latched cfg env s true hfull).2.2 with hi | hi
    · rw [hi]
      exact hlk
    · rw [hi]
      apply valid_index_false_of_neg
      unfold EPERM
      omega
  · intro hc
    refine get_index_full_eq cfg env s true ?_
    rw [hc]
    decide
  · exact ad_handler_full_of_full cfg curves envAd envRsp s frame nm
  · intro hv
    simp [gw_obj_removed, hv, setSlot]
  · intro hv
    simp [gw_obj_removed, hv]

/-- Witness for claim C3: concrete runs exercising every implication of the
latch claim. -/
theorem claim_C3_witness :
    (get_index cfgW envNomemW sW true).state.table_full = true ∧
    createCount (get_index cfgW envNomemW sFullW true).effects = 0 ∧
    valid_index cfgW (get_index cfgW envNomemW sFullW true).idx = false ∧
    (get_index cfgW envEpermW sW true).state.table_full = sW.table_full ∧
    (ad_handler cfgW curvesW envW envW sFullW ClassifiedAd.noMatch none).state.table_full = true ∧
    (gw_obj_removed cfgW sFullW 1).state.table_full = false ∧
    (gw_obj_removed cfgW sFullW (-3)).state = sFullW := by
  refine ⟨?_, ?_, ?_, ?_, ?_, ?_, ?_⟩
  · exact (claim_C3_capacity_latch cfgW curvesW envNomemW envW envW sW
      ClassifiedAd.noMatch none 0).1 (by decide) rfl rfl
  · exact (claim_C3_capacity_latch cfgW curvesW envNomemW envW envW sFullW
      ClassifiedAd.noMatch none 0).2.1 rfl
  · exact (claim_C3_capacity_latch cfgW curvesW envNomemW envW envW sFullW
      ClassifiedAd.noMatch none 0).2.2.1 rfl (by decide)
  · exact (claim_C3_capacity_latch cfgW curvesW envEpermW envW envW sW
      ClassifiedAd.noMatch none 0).2.2.2.1 rfl
  · exact (claim_C3_capacity_latch cfgW curvesW envW envW envW sFullW
      ClassifiedAd.noMatch none 0).2.2.2.2.1 rfl
  · exact (claim_C3_capacity_latch cfgW curvesW envW envW envW sFullW
      ClassifiedAd.noMatch none 1).2.2.2.2.2.1 (by decide)
  · exact (claim_C3_capacity_latch cfgW curvesW envW envW envW sFullW
      ClassifiedAd.noMatch none (-3)).2.2.2.2.2.2 (by decide)

theorem setSlot_setSlot (s : LbsState) (i : Int) (v w : Slot) :
    setSlot (setSlot s i v) i w = setSlot s i w := by
  unfold setSlot
  congr 1
  funext j
  by_cases hj : j = i <;> simp [hj]

/-- Claim C9: gw_obj_removed validates the index before touching state and
is idempotent.  For a valid index it clears the capacity latch, resets the
slot's product id to the invalid sentinel (so a later correlation reusing
the slot cannot observe the previous device's product id), and running it
twice equals running it once; for an invalid index it changes nothing and
still returns 0. -/
theorem claim_C9_removal_idempotent (cfg : Config) (s : LbsState) (idx : Int) :
    (valid_index cfg idx = true →
      (gw_obj_removed cfg s idx).state.table_full = false ∧
      ((gw_obj_removed cfg s idx).state.table idx).product_id = INVALID_PRODUCT_ID ∧
      gw_obj_removed cfg (gw_obj_removed cfg s idx).state idx = gw_obj_removed cfg s idx) ∧
    (valid_index cfg idx = false →
      (gw_obj_removed cfg s idx).state = s ∧ (gw_obj_removed cfg s idx).ret = 0) := by
  constructor
  · intro hv
    refine ⟨by simp [gw_obj_removed, hv, setSlot], by simp [gw_obj_removed, hv, setSlot], ?_⟩
    simp only [gw_obj_removed, hv, if_true]
    congr 1
    · rw [show ({ (setSlot { s with table_full := false } idx
          { s.table idx with product_id := INVALID_PRODUCT_ID }) with table_full := false } :
            LbsState) =
          setSlot { s with table_full := false } idx
            { s.table idx with product_id := INVALID_PRODUCT_ID } from rfl]
      rw [setSlot_setSlot]
      congr 1
      simp [setSlot]
  · intro hv
    simp [gw_obj_removed, hv]

/-- Witness for claim C9: index 2 of a four-slot table. -/
theorem claim_C9_witness :
    valid_index cfgW 2 = true ∧
    (gw_obj_removed cfgW sFullW 2).state.table_full = false ∧
    ((gw_obj_removed cfgW sFullW 2).state.table 2).product_id = INVALID_PRODUCT_ID ∧
    gw_obj_removed cfgW (gw_obj_removed cfgW sFullW 2).state 2 = gw_obj_removed cfgW sFullW 2 := by
  have h := (claim_C9_removal_idempotent cfgW sFullW 2).1 (by decide)
  exact ⟨by decide, h.1, h.2.1, h.2.2⟩

/-- Claim C8: name_handler is a no-op on an invalid index, on a frame
without a name field, and when the directory reports the instance already
created; otherwise it issues exactly one set-endpoint-name call.  Under the
assumption that the directory reports the instance created after a
successful name set, two calls with different names persist only the first
name. -/
theorem claim_C8_name_once (cfg : Config) (env env2 : DirEnv) (idx : Int)
    (nm : Option (List Nat)) (n1 n2 : List Nat) :
    (valid_index cfg idx = false → name_handler cfg env idx nm = []) ∧
    name_handler cfg env idx none = [] ∧
    (env.inst_created = true → (name_handler cfg env idx nm).any isSetName = false) ∧
    (valid_index cfg idx = true → env.inst_created = false →
      name_handler cfg env idx (some n1) =
        [Effect.inst_created_query idx, Effect.set_endpoint_name idx n1]) ∧
    (valid_index cfg idx = true → env.inst_created = false → env2.inst_created = true →
      (name_handler cfg env idx (some n1) ++
        name_handler cfg env2 idx (some n2)).filter isSetName =
        [Effect.set_endpoint_name idx n1]) := by
  refine ⟨?_, ?_, ?_, ?_, ?_⟩
  · intro hv
    simp [name_handler, hv]
  · unfold name_handler
    split_ifs <;> rfl
  · intro hc
    unfold name_handler
    cases nm <;> split_ifs <;> simp_all [isSetName]
  · intro hv hc
    simp [name_handler, hv, hc]
  · intro hv hc hc2
    simp [name_handler, hv, hc, hc2, isSetName, List.filter_append]

/-- Directory that reports the record's instance already created. -/
def envCreatedW : DirEnv := ⟨0, 0, true⟩

/-- Witness for claim C8: two name frames for index 1; only the first name
survives the filter of set-endpoint-name effects. -/
theorem claim_C8_witness :
    valid_index cfgW 1 = true ∧ envW.inst_created = false ∧ envCreatedW.inst_created = true ∧
    (name_handler cfgW envW 1 (some [65]) ++
      name_handler cfgW envCreatedW 1 (some [66])).filter isSetName =
      [Effect.set_endpoint_name 1 [65]] :=
  ⟨by decide, rfl, rfl,
    (claim_C8_name_once cfgW envW envCreatedW 1 none [65] [66]).2.2.2.2 (by decide) rfl rfl⟩

/-- Claim C5: a bare scan response never creates a device record, because
rsp_handler resolves the address with creation disallowed; on a successful
resolution it stores the response's product id in the slot.  On a coded-PHY
composite frame both the embedded event and the embedded scan response are
processed, every creation comes from the event path alone (so the whole
frame performs at most one creation), and when the event passes the type
gate for an unknown address with capacity left, exactly one creation
occurs. -/
theorem claim_C5_single_creation (cfg : Config) (curves : BatteryCurves)
    (envAd envRsp env : DirEnv) (s s2 : LbsState) (ad : LczSensorAdEvent)
    (rsp p : LczSensorRsp) (nm : Option (List Nat)) :
    createCount (rsp_handler cfg env s2 (some p)).effects = 0 ∧
    (0 ≤ (rsp_handler cfg env s2 (some p)).idx →
      ((rsp_handler cfg env s2 (some p)).state.table
        ((rsp_handler cfg env s2 (some p)).idx)).product_id = (p.productId : Int)) ∧
    (ad_handler cfg curves envAd envRsp s (ClassifiedAd.coded ad rsp) nm).effects =
      (ad_filter cfg curves envAd s (some ad)).effects ++
        (rsp_handler cfg envRsp (ad_filter cfg curves envAd s (some ad)).state (some rsp)).effects ++
        name_handler cfg envRsp
          (rsp_handler cfg envRsp (ad_filter cfg curves envAd s (some ad)).state (some rsp)).idx nm ∧
    createCount (ad_handler cfg curves envAd envRsp s (ClassifiedAd.coded ad rsp) nm).effects =
      createCount (ad_filter cfg curves envAd s (some ad)).effects ∧
    createCount (ad_filter cfg curves envAd s (some ad)).effects ≤ 1 ∧
    (ad_discard cfg ad = false → valid_index cfg envAd.lookup = false → s.table_full = false →
      createCount (ad_handler cfg curves envAd envRsp s (ClassifiedAd.coded ad rsp) nm).effects = 1) := by
  have hcomp :
      createCount (ad_handler cfg curves envAd envRsp s (ClassifiedAd.coded ad rsp) nm).effects =
        createCount (ad_filter cfg curves envAd s (some ad)).effects := by
    have hr := rsp_handler_no_create cfg envRsp
      (ad_filter cfg curves envAd s (some ad)).state (some rsp)
    have hn := name_handler_no_create cfg envRsp
      (rsp_handler cfg envRsp (ad_filter cfg curves envAd s (some ad)).state (some rsp)).idx nm
    unfold createCount at hr hn ⊢
    simp [ad_handler, List.countP_append, hr, hn]
  refine ⟨rsp_handler_no_create cfg env s2 (some p), ?_, rfl, hcomp,
    ad_filter_create_le_one cfg curves envAd s (some ad), ?_⟩
  · intro h
    simp only [rsp_handler] at h ⊢
    split_ifs at h ⊢ with h0
    · simp [setSlot]
    · exact absurd h h0
  · intro h1 h2 h3
    rw [hcomp]
    exact ad_filter_create_eq_one cfg curves envAd s ad h1 h2 h3

/-- Witness for claim C5: a temperature event for an unknown address with a
free slot, bundled with a scan response in one coded frame, creates exactly
one record; the bare scan response on a known address stores its product id
without creating. -/
theorem claim_C5_witness :
    0 ≤ (rsp_handler cfgW envW sW (some (LczSensorRsp.mk 1))).idx ∧
    ((rsp_handler cfgW envW sW (some (LczSensorRsp.mk 1))).state.table
      ((rsp_handler cfgW envW sW (some (LczSensorRsp.mk 1))).idx)).product_id = ((1 : Nat) : Int) ∧
    ad_discard cfgW (LczSensorAdEvent.mk 5 SENSOR_EVENT_TEMPERATURE 100) = false ∧
    valid_index cfgW envEpermW.lookup = false ∧ sW.table_full = false ∧
    createCount (ad_handler cfgW curvesW
      (DirEnv.mk (-1) 2 false) envW sW
      (ClassifiedAd.coded (LczSensorAdEvent.mk 5 SENSOR_EVENT_TEMPERATURE 100)
        (LczSensorRsp.mk 1)) none).effects = 1 := by
  refine ⟨by decide, ?_, by decide, by decide, rfl, ?_⟩
  · exact (claim_C5_single_creation cfgW curvesW envW envW envW sW sW
      (LczSensorAdEvent.mk 5 SENSOR_EVENT_TEMPERATURE 100) (LczSensorRsp.mk 1)
      (LczSensorRsp.mk 1) none).2.1 (by decide)
  · exact (claim_C5_single_creation cfgW curvesW (DirEnv.mk (-1) 2 false) envW envW sW sW
      (LczSensorAdEvent.mk 5 SENSOR_EVENT_TEMPERATURE 100) (LczSensorRsp.mk 1)
      (LczSensorRsp.mk 1) none).2.2.2.2.2 (by decide) (by decide) rfl

/-- Claim C7: a single-channel temperature event dispatches, at sub-channel
0, the raw 16-bit payload reinterpreted as a signed 16-bit integer divided
by 100. -/
theorem claim_C7_temperature (cfg : Config) (curves : BatteryCurves) (s : LbsState)
    (idx : Int) (p : LczSensorAdEvent) (hc : cfg.temperature = true)
    (hr : p.recordType = SENSOR_EVENT_TEMPERATURE) :
    ad_process cfg curves s idx p =
      [Effect.temperature_set idx 0
        (((if p.raw % 65536 < 32768 then (p.raw % 65536 : Int)
            else (p.raw % 65536 : Int) - 65536) : Rat) / 100)] := by
  unfold ad_process data_s16
  simp [hr, hc]

/-- Witness for claim C7: the 16-bit pattern 65413 encodes -123 and yields
-1.23 degrees at sub-channel 0. -/
theorem claim_C7_witness :
    cfgW.temperature = true ∧
    (LczSensorAdEvent.mk 9 SENSOR_EVENT_TEMPERATURE 65413).recordType =
      SENSOR_EVENT_TEMPERATURE ∧
    ad_process cfgW curvesW sW 0 (LczSensorAdEvent.mk 9 SENSOR_EVENT_TEMPERATURE 65413) =
      [Effect.temperature_set 0 0 ((-123 : Rat) / 100)] := by
  refine ⟨rfl, rfl, ?_⟩
  rw [claim_C7_temperature cfgW curvesW sW 0 _ rfl rfl]
  norm_num

/-- Counterexample for claim C2: for the BT6XX family the code casts the
signed 32-bit payload through uint32_t before converting, so the raw
pattern 4294967295, whose signed 32-bit value is -1, is dispatched as
4294967295/1000 volts and not as the claim's -1/1000 volts. -/
theorem claim_C2_counterexample :
    ad_process (Config.mk 4 300 true true true true true)
      (BatteryCurves.mk (fun _ => 40) (fun _ => 60))
      (LbsState.mk false (fun _ => Slot.mk 0 0 BT6XX_PRODUCT_ID)) 0
      (LczSensorAdEvent.mk 1 SENSOR_EVENT_BATTERY_GOOD 4294967295) =
      [Effect.slot_read 0, Effect.battery_set 0 0 ((4294967295 : Rat) / 1000) 60] ∧
    data_s32 4294967295 = -1 ∧
    ((4294967295 : Rat) / 1000) ≠ (((-1 : Int) : Rat) / 1000) := by
  refine ⟨?_, by norm_num [data_s32], by norm_num⟩
  norm_num [ad_process, data_u32, data_u16, BT510_PRODUCT_ID, BT6XX_PRODUCT_ID,
    SENSOR_EVENT_TEMPERATURE, SENSOR_EVENT_BATTERY_GOOD, SENSOR_EVENT_BATTERY_BAD,
    SENSOR_EVENT_TEMPERATURE_1, SENSOR_EVENT_TEMPERATURE_2, SENSOR_EVENT_TEMPERATURE_3,
    SENSOR_EVENT_TEMPERATURE_4]

/-- Claim C2 (amended): for a battery event, a BT510-family slot dispatches
the payload's low 16 bits read unsigned, divided by 1000, with the BT510
curve percentage; a BT6XX-family slot dispatches the 32-bit payload
reinterpreted as an unsigned 32-bit value (the signed payload reduced
modulo 2 ^ 32), divided by 1000, with the BT610 curve percentage; any other
product id dispatches 0 volts and 0 percent; and the battery sink is
invoked in every case. -/
theorem claim_C2_battery (cfg : Config) (curves : BatteryCurves) (s : LbsState)
    (idx : Int) (p : LczSensorAdEvent) (hb : cfg.battery = true)
    (ht : p.recordType = SENSOR_EVENT_BATTERY_GOOD ∨
      p.recordType = SENSOR_EVENT_BATTERY_BAD) :
    ((s.table idx).product_id = BT510_PRODUCT_ID →
      ad_process cfg curves s idx p =
        [Effect.slot_read idx,
         Effect.battery_set idx 0 (((p.raw % 65536 : Nat) : Rat) / 1000)
           (curves.bt510 (((p.raw % 65536 : Nat) : Rat) / 1000))]) ∧
    ((s.table idx).product_id = BT6XX_PRODUCT_ID →
      ad_process cfg curves s idx p =
        [Effect.slot_read idx,
         Effect.battery_set idx 0 (((p.raw % 4294967296 : Nat) : Rat) / 1000)
           (curves.bt610 (((p.raw % 4294967296 : Nat) : Rat) / 1000))]) ∧
    ((s.table idx).product_id ≠ BT510_PRODUCT_ID →
      (s.table idx).product_id ≠ BT6XX_PRODUCT_ID →
      ad_process cfg curves s idx p = [Effect.slot_read idx, Effect.battery_set idx 0 0 0]) := by
  refine ⟨?_, ?_, ?_⟩
  · intro hp
    unfold ad_process data_u16
    rcases ht with h | h <;>
      simp [h, hb, hp, SENSOR_EVENT_TEMPERATURE, SENSOR_EVENT_BATTERY_GOOD,
        SENSOR_EVENT_BATTERY_BAD, SENSOR_EVENT_TEMPERATURE_1, SENSOR_EVENT_TEMPERATURE_2,
        SENSOR_EVENT_TEMPERATURE_3, SENSOR_EVENT_TEMPERATURE_4]
  · intro hp
    unfold ad_process data_u32
    rcases ht with h | h <;>
      simp [h, hb, hp, BT510_PRODUCT_ID, BT6XX_PRODUCT_ID, SENSOR_EVENT_TEMPERATURE,
        SENSOR_EVENT_BATTERY_GOOD,
        SENSOR_EVENT_BATTERY_BAD, SENSOR_EVENT_TEMPERATURE_1, SENSOR_EVENT_TEMPERATURE_2,
        SENSOR_EVENT_TEMPERATURE_3, SENSOR_EVENT_TEMPERATURE_4]
  · intro hp1 hp2
    unfold ad_process
    rcases ht with h | h <;>
      simp [h, hb, hp1, hp2, SENSOR_EVENT_TEMPERATURE, SENSOR_EVENT_BATTERY_GOOD,
        SENSOR_EVENT_BATTERY_BAD, SENSOR_EVENT_TEMPERATURE_1, SENSOR_EVENT_TEMPERATURE_2,
        SENSOR_EVENT_TEMPERATURE_3, SENSOR_EVENT_TEMPERATURE_4]

/-- Witness for claim C2 (amended): raw 3777 on a BT510-family slot yields
3.777 volts with the BT510 curve percentage; the same raw value on a slot
with an unknown product id yields 0 volts and 0 percent, with the sink
still invoked. -/
theorem claim_C2_witness :
    cfgW.battery = true ∧
    (LczSensorAdEvent.mk 2 SENSOR_EVENT_BATTERY_GOOD 3777).recordType =
      SENSOR_EVENT_BATTERY_GOOD ∧
    ad_process cfgW curvesW (LbsState.mk false (fun _ => Slot.mk 0 0 BT510_PRODUCT_ID)) 0
      (LczSensorAdEvent.mk 2 SENSOR_EVENT_BATTERY_GOOD 3777) =
      [Effect.slot_read 0, Effect.battery_set 0 0 ((3777 : Rat) / 1000) 40] ∧
    ad_process cfgW curvesW sW 0 (LczSensorAdEvent.mk 2 SENSOR_EVENT_BATTERY_GOOD 3777) =
      [Effect.slot_read 0, Effect.battery_set 0 0 0 0] := by
  refine ⟨rfl, rfl, ?_, ?_⟩
  · rw [(claim_C2_battery cfgW curvesW (LbsState.mk false (fun _ => Slot.mk 0 0 BT510_PRODUCT_ID))
      0 (LczSensorAdEvent.mk 2 SENSOR_EVENT_BATTERY_GOOD 3777) rfl (Or.inl rfl)).1 rfl]
    norm_num [curvesW]
  · rw [(claim_C2_battery cfgW curvesW sW 0
      (LczSensorAdEvent.mk 2 SENSOR_EVENT_BATTERY_GOOD 3777) rfl (Or.inl rfl)).2.2
      (by decide) (by decide)]

/-- Claim C1: after the type gate passes and index resolution succeeds,
ad_filter rejects the event as a duplicate exactly when its sequence id is
nonzero, equals the stored last_event_id of the resolved slot, and its
record type equals the stored last_record_type.  A duplicate rejection
still returns the resolved index and leaves the whole state (in particular
the slot) unchanged, with no sink dispatch and no lifetime extension; a
non-duplicate is accepted, extending the lifetime and updating the slot
markers; an event with sequence id 0 is always accepted. -/
theorem claim_C1_duplicate_suppression (cfg : Config) (curves : BatteryCurves)
    (env : DirEnv) (s : LbsState) (p : LczSensorAdEvent)
    (hgate : ad_discard cfg p = false)
    (hvalid : valid_index cfg (get_index cfg env s true).idx = true) :
    (ad_filter cfg curves env s (some p)).idx = (get_index cfg env s true).idx ∧
    ((p.id ≠ 0 ∧ p.id = (s.table (get_index cfg env s true).idx).last_event_id ∧
        p.recordType = (s.table (get_index cfg env s true).idx).last_record_type) →
      (ad_filter cfg curves env s (some p)).state = s ∧
      (ad_filter cfg curves env s (some p)).effects.any isDispatch = false ∧
      (ad_filter cfg curves env s (some p)).effects.any isSetLifetime = false) ∧
    (¬ (p.id ≠ 0 ∧ p.id = (s.table (get_index cfg env s true).idx).last_event_id ∧
        p.recordType = (s.table (get_index cfg env s true).idx).last_record_type) →
      (ad_filter cfg curves env s (some p)).effects.any isSetLifetime = true ∧
      ((ad_filter cfg curves env s (some p)).state.table
        (get_index cfg env s true).idx).last_event_id = p.id ∧
      ((ad_filter cfg curves env s (some p)).state.table
        (get_index cfg env s true).idx).last_record_type = p.recordType) ∧
    (p.id = 0 → (ad_filter cfg curves env s (some p)).effects.any isSetLifetime = true) := by
  have hst : (get_index cfg env s true).state = s :=
    get_index_state_of_nonneg cfg env s true (valid_index_nonneg _ _ hvalid)
  have hge := get_index_effects_cases cfg env s true
  refine ⟨?_, ?_, ?_, ?_⟩
  · simp only [ad_filter]
    split_ifs with hd hv hdup
    · exact absurd (hgate ▸ hd) (by simp)
    · simp [hvalid] at hv
    · rfl
    · rfl
  · intro hdup
    simp only [ad_filter]
    split_ifs with hd hv hdup2
    · exact absurd (hgate ▸ hd) (by simp)
    · simp [hvalid] at hv
    · refine ⟨hst, ?_, ?_⟩
      · rcases hge with hg | hg <;> simp [hg, isDispatch]
      · rcases hge with hg | hg <;> simp [hg, isSetLifetime]
    · rw [hst] at hdup2
      exact absurd hdup hdup2
  · intro hnd
    simp only [ad_filter]
    split_ifs with hd hv hdup2
    · exact absurd (hgate ▸ hd) (by simp)
    · simp [hvalid] at hv
    · rw [hst] at hdup2
      exact absurd hdup2 hnd
    · refine ⟨?_, ?_, ?_⟩
      · simp [List.any_append, isSetLifetime]
      · simp [setSlot]
      · simp [setSlot]
  · intro h0
    simp only [ad_filter]
    split_ifs with hd hv hdup2
    · exact absurd (hgate ▸ hd) (by simp)
    · simp [hvalid] at hv
    · exact absurd hdup2.1 (by simp [h0])
    · simp [List.any_append, isSetLifetime]

/-- Witness for claim C1: a temperature event on a known address passes the
gate and resolves to a valid index. -/
theorem claim_C1_witness :
    ad_discard cfgW (LczSensorAdEvent.mk 5 SENSOR_EVENT_TEMPERATURE 100) = false ∧
    valid_index cfgW (get_index cfgW envW sW true).idx = true ∧
    (ad_filter cfgW curvesW envW sW
      (some (LczSensorAdEvent.mk 5 SENSOR_EVENT_TEMPERATURE 100))).idx =
      (get_index cfgW envW sW true).idx :=
  ⟨by decide, by decide,
    (claim_C1_duplicate_suppression cfgW curvesW envW sW
      (LczSensorAdEvent.mk 5 SENSOR_EVENT_TEMPERATURE 100) (by decide) (by decide)).1⟩

end LczSensor
